import Mathlib

/-!
Verification of the topology-derivation and validation core of the
containerlab campus-lab repository.

The definitions below are shallow embeddings of the Python sources:
  - scripts/netbox_generate_configs.py (BGP neighbor derivation, mask
    conversion),
  - scripts/netbox_populate.py (static link inventory),
  - tests/test_phase1_core_ospf.py, tests/test_phase2_mpls_ldp.py,
    tests/test_phase3_mpbgp_rr.py, tests/test_phase8_l3vpn.py
    (validation assertions and expected data).

Python dictionaries are embedded as association lists in insertion
order; Python string operations (`in`, `.count`, `.split`) are embedded
as executable functions over `List Char`.
-/

set_option maxRecDepth 4000

namespace EUnivLab

/-! ## String helpers (embeddings of Python string primitives) -/

/-- Split a character list on a separator character, like Python `str.split(sep)`:
`splitOnChar '.' "a.b"` gives `["a", "b"]` (as char lists). -/
def splitOnChar (sep : Char) : List Char → List (List Char)
  | [] => [[]]
  | a :: rest =>
    if a = sep then [] :: splitOnChar sep rest
    else
      match splitOnChar sep rest with
      | [] => [[a]]
      | g :: gs => (a :: g) :: gs

/-- Parse a non-empty list of decimal digits to a natural number, `none` otherwise. -/
def charsToNat? (cs : List Char) : Option Nat :=
  if cs = [] then none
  else
    cs.foldl
      (fun acc c =>
        match acc with
        | none => none
        | some n => if c.isDigit then some (n * 10 + (c.toNat - 48)) else none)
      (some 0)

/-- Fuel-bounded scan for `countSub`: at each step either one character
is dropped or, on a match, at least one character is consumed, so fuel
equal to the length of the scanned list is always sufficient. -/
def countSubFuel (pat : List Char) : Nat → List Char → Nat
  | 0, _ => 0
  | fuel + 1, s =>
    match s with
    | [] => 0
    | c :: rest =>
      if pat.isPrefixOf (c :: rest) then
        countSubFuel pat fuel (rest.drop (pat.length - 1)) + 1
      else
        countSubFuel pat fuel rest

/-- Number of non-overlapping occurrences of `pat` in `s`, like Python `str.count`. -/
def countSub (pat s : List Char) : Nat :=
  countSubFuel pat s.length s

/-- Substring test, like Python `pat in s` (for non-empty `pat`). -/
def hasSub (pat s : List Char) : Bool :=
  countSub pat s != 0

/-- Two string lists are equal as sets, like Python `set(xs) == set(ys)`. -/
def set_eq (xs ys : List String) : Bool :=
  xs.all (fun x => ys.contains x) && ys.all (fun y => xs.contains y)

/-! ## Dotted-quad interpretation (the spec's "dotted-quad numeric order") -/

/-- Numeric value of a dotted-quad IPv4 address given as characters;
`none` when the text is not four dot-separated decimal fields. -/
def ipNumericChars? (cs : List Char) : Option Nat :=
  match (splitOnChar '.' cs).map charsToNat? with
  | [some a, some b, some c, some d] => some (((a * 256 + b) * 256 + c) * 256 + d)
  | _ => none

/-- Numeric value of a dotted-quad IPv4 address string. -/
def ipNumeric? (s : String) : Option Nat :=
  ipNumericChars? s.toList

/-- The list of address strings is sorted by dotted-quad numeric value
(every adjacent pair parses and is non-decreasing). -/
def ipSortedCheck : List String → Bool
  | [] => true
  | [_] => true
  | a :: b :: rest =>
    (match ipNumeric? a, ipNumeric? b with
     | some x, some y => decide (x ≤ y)
     | _, _ => false) && ipSortedCheck (b :: rest)

/-- Parse `"a.b.c.d/len"` into (numeric address, prefix length). -/
def cidrParse? (s : String) : Option (Nat × Nat) :=
  match splitOnChar '/' s.toList with
  | [addr, len] =>
    match ipNumericChars? addr, charsToNat? len with
    | some a, some l => some (a, l)
    | _, _ => none
  | _ => none

/-! ## BGP topology constants (scripts/netbox_generate_configs.py, lines 36-38) -/

def BGP_AS : Nat := 65001

def ROUTE_REFLECTORS : List String := ["core1", "core2", "core5"]

def RR_CLIENTS : List String := ["core3", "core4"]

/-- Phase device list, `PHASE_CONFIG[3]['devices']` (also `CORE_ROUTERS` of the tests). -/
def CORE_ROUTERS : List String := ["core1", "core2", "core3", "core4", "core5"]

/-- The loopback mapping `all_loopbacks` gathered by `generate_phase_configs`
for the phase 1-3 device list; concrete values from `DEVICES` in
scripts/netbox_populate.py (equal to `LOOPBACKS` of the test files).
Embedded as an association list in insertion order (Python dict order). -/
def LOOPBACKS : List (String × String) :=
  [("core1", "10.255.1.1"), ("core2", "10.255.1.2"), ("core3", "10.255.1.3"),
   ("core4", "10.255.1.4"), ("core5", "10.255.1.5")]

/-- Loopback of a named device under `LOOPBACKS` (empty for unknown names). -/
def loopback_of (d : String) : String :=
  (LOOPBACKS.lookup d).getD ""

/-- One BGP neighbor entry as built by `get_bgp_neighbors`. -/
structure Neighbor where
  ip : String
  description : String
  is_client : Bool
deriving DecidableEq

/-- The route-reflector branch of `get_bgp_neighbors` (lines 115-124):
one entry per key of `all_devices` other than `device_name`, in iteration
order, flagging `is_client` for peers in `RR_CLIENTS`. -/
def rr_branch_neighbors (device_name : String) (all_devices : List (String × String)) :
    List Neighbor :=
  all_devices.filterMap fun p =>
    if p.1 = device_name then none
    else
      some
        { ip := p.2,
          description := p.1 ++ (if RR_CLIENTS.contains p.1 then "-RR-client" else ""),
          is_client := RR_CLIENTS.contains p.1 }

/-- The client branch of `get_bgp_neighbors` (lines 126-132): one entry per
route reflector, looked up in `all_devices`; `none` embeds the Python
`KeyError` raised when a route reflector key is absent. -/
def client_branch_neighbors (all_devices : List (String × String)) :
    List String → Option (List Neighbor)
  | [] => some []
  | rr :: rest =>
    match all_devices.lookup rr, client_branch_neighbors all_devices rest with
    | some ip, some rest_nbrs =>
      some ({ ip := ip, description := rr ++ "-RR", is_client := false } :: rest_nbrs)
    | _, _ => none

/-- Translation of `get_bgp_neighbors(device_name, all_devices)`
(scripts/netbox_generate_configs.py, lines 111-134). -/
def get_bgp_neighbors (device_name : String) (all_devices : List (String × String)) :
    Option (List Neighbor) :=
  if ROUTE_REFLECTORS.contains device_name then
    some (rr_branch_neighbors device_name all_devices)
  else
    client_branch_neighbors all_devices ROUTE_REFLECTORS

/-! ## Prefix-length to dotted-mask conversion
(scripts/netbox_generate_configs.py, lines 88-91, inside `get_device_data`) -/

/-- One octet of the rendered mask: the Python per-octet expression
`(0xffffffff << (32 - prefix_len) >> i) & 0xff` (Python integers are
unbounded, so no 32-bit truncation happens before the shifts). -/
def mask_octet (prefix_len i : Nat) : Nat :=
  ((0xffffffff <<< (32 - prefix_len)) >>> i) &&& 0xff

/-- The rendered dotted mask:
`'.'.join([str((0xffffffff << (32 - prefix_len) >> i) & 0xff) for i in [24, 16, 8, 0]])`. -/
def mask (prefix_len : Nat) : String :=
  String.intercalate "." (([24, 16, 8, 0] : List Nat).map fun i => toString (mask_octet prefix_len i))

/-- Spec reference (§4.3): `0xFFFFFFFF << (32 - prefixlen)` truncated to
32 bits, then split into four octets. Stated from the spec's words, to be
compared with the implementation's `mask_octet`. -/
def mask_ref_octet (prefix_len i : Nat) : Nat :=
  (((0xffffffff <<< (32 - prefix_len)) % 4294967296) >>> i) &&& 0xff

/-! ## Static link inventory (scripts/netbox_populate.py, lines 63-98) -/

/-- One row of `LINKS`: `(device_a, intf_a, ip_a, device_b, intf_b, ip_b)`. -/
structure Link where
  device_a : String
  intf_a : String
  ip_a : String
  device_b : String
  intf_b : String
  ip_b : String
deriving DecidableEq

def LINKS : List Link :=
  [⟨"core1", "GigabitEthernet2", "10.0.0.0/31", "core2", "GigabitEthernet2", "10.0.0.1/31"⟩,
   ⟨"core2", "GigabitEthernet3", "10.0.0.2/31", "core3", "GigabitEthernet2", "10.0.0.3/31"⟩,
   ⟨"core3", "GigabitEthernet3", "10.0.0.4/31", "core4", "GigabitEthernet2", "10.0.0.5/31"⟩,
   ⟨"core4", "GigabitEthernet3", "10.0.0.6/31", "core5", "GigabitEthernet2", "10.0.0.7/31"⟩,
   ⟨"core5", "GigabitEthernet3", "10.0.0.8/31", "core1", "GigabitEthernet3", "10.0.0.9/31"⟩,
   ⟨"core1", "GigabitEthernet4", "10.0.0.10/31", "inet-gw1", "GigabitEthernet2", "10.0.0.11/31"⟩,
   ⟨"core2", "GigabitEthernet4", "10.0.0.12/31", "inet-gw2", "GigabitEthernet2", "10.0.0.13/31"⟩,
   ⟨"core1", "GigabitEthernet5", "10.0.1.0/31", "main-agg1", "GigabitEthernet2", "10.0.1.1/31"⟩,
   ⟨"core2", "GigabitEthernet5", "10.0.1.2/31", "main-agg1", "GigabitEthernet3", "10.0.1.3/31"⟩,
   ⟨"main-agg1", "GigabitEthernet4", "10.0.1.4/31", "main-edge1", "GigabitEthernet2", "10.0.1.5/31"⟩,
   ⟨"main-agg1", "GigabitEthernet5", "10.0.1.6/31", "main-edge2", "GigabitEthernet2", "10.0.1.7/31"⟩,
   ⟨"main-edge1", "GigabitEthernet3", "10.0.1.8/31", "main-edge2", "GigabitEthernet3", "10.0.1.9/31"⟩,
   ⟨"core2", "GigabitEthernet6", "10.0.2.0/31", "med-agg1", "GigabitEthernet2", "10.0.2.1/31"⟩,
   ⟨"core3", "GigabitEthernet4", "10.0.2.2/31", "med-agg1", "GigabitEthernet3", "10.0.2.3/31"⟩,
   ⟨"med-agg1", "GigabitEthernet4", "10.0.2.4/31", "med-edge1", "GigabitEthernet2", "10.0.2.5/31"⟩,
   ⟨"med-agg1", "GigabitEthernet5", "10.0.2.6/31", "med-edge2", "GigabitEthernet2", "10.0.2.7/31"⟩,
   ⟨"med-edge1", "GigabitEthernet3", "10.0.2.8/31", "med-edge2", "GigabitEthernet3", "10.0.2.9/31"⟩,
   ⟨"core4", "GigabitEthernet4", "10.0.3.0/31", "res-agg1", "GigabitEthernet2", "10.0.3.1/31"⟩,
   ⟨"core5", "GigabitEthernet4", "10.0.3.2/31", "res-agg1", "GigabitEthernet3", "10.0.3.3/31"⟩,
   ⟨"res-agg1", "GigabitEthernet4", "10.0.3.4/31", "res-edge1", "GigabitEthernet2", "10.0.3.5/31"⟩,
   ⟨"res-agg1", "GigabitEthernet5", "10.0.3.6/31", "res-edge2", "GigabitEthernet2", "10.0.3.7/31"⟩,
   ⟨"res-edge1", "GigabitEthernet3", "10.0.3.8/31", "res-edge2", "GigabitEthernet3", "10.0.3.9/31"⟩,
   ⟨"main-edge1", "GigabitEthernet4", "10.0.1.10/31", "main-asw1", "GigabitEthernet2", "10.0.1.11/31"⟩,
   ⟨"main-edge2", "GigabitEthernet4", "10.0.1.12/31", "main-asw1", "GigabitEthernet3", "10.0.1.13/31"⟩,
   ⟨"med-edge1", "GigabitEthernet4", "10.0.2.10/31", "med-asw1", "GigabitEthernet2", "10.0.2.11/31"⟩,
   ⟨"med-edge2", "GigabitEthernet4", "10.0.2.12/31", "med-asw1", "GigabitEthernet3", "10.0.2.13/31"⟩,
   ⟨"res-edge1", "GigabitEthernet4", "10.0.3.10/31", "res-asw1", "GigabitEthernet2", "10.0.3.11/31"⟩,
   ⟨"res-edge2", "GigabitEthernet4", "10.0.3.12/31", "res-asw1", "GigabitEthernet3", "10.0.3.13/31"⟩]

/-- Both endpoint addresses of a Link parse as `/31` CIDRs lying in the
same /31 block, differing only in the final address bit. -/
def link_31_ok (l : Link) : Bool :=
  match cidrParse? l.ip_a, cidrParse? l.ip_b with
  | some (a, la), some (b, lb) => la == 31 && lb == 31 && a / 2 == b / 2 && a != b
  | _, _ => false

/-- The two (device, interface) endpoints of a Link. -/
def link_endpoints (l : Link) : List (String × String) :=
  [(l.device_a, l.intf_a), (l.device_b, l.intf_b)]

/-! ## Validation assertions from the phase test files -/

/-- Expected OSPF neighbors per core router
(tests/test_phase1_core_ospf.py, `EXPECTED_NEIGHBORS`, lines 20-26). -/
def EXPECTED_NEIGHBORS : List (String × List String) :=
  [("core1", ["10.255.1.2", "10.255.1.5"]),
   ("core2", ["10.255.1.1", "10.255.1.3"]),
   ("core3", ["10.255.1.2", "10.255.1.4"]),
   ("core4", ["10.255.1.3", "10.255.1.5"]),
   ("core5", ["10.255.1.4", "10.255.1.1"])]

/-- Translation of `test_correct_ospf_neighbors`
(tests/test_phase1_core_ospf.py, lines 122-135): the assertion passes
exactly when the set of neighbor router-ids found in the parsed output
equals the expected set (`found_neighbors == set(EXPECTED_NEIGHBORS[router])`).
`none` embeds the `KeyError` for a router with no expected entry. -/
def test_correct_ospf_neighbors_pass (router : String) (found : List String) :
    Option Bool :=
  (EXPECTED_NEIGHBORS.lookup router).map fun expected => set_eq found expected

/-- Translation of `test_ldp_neighbor_count`
(tests/test_phase2_mpls_ldp.py, lines 95-104): count occurrences of
`'Peer LDP Ident'` in the raw output and pass when the count is at least 2. -/
def test_ldp_neighbor_count_pass (output : String) : Bool :=
  decide (2 ≤ countSub "Peer LDP Ident".toList output.toList)

/-- Translation of `test_bgp_neighbors_established`
(tests/test_phase3_mpbgp_rr.py, lines 94-114): every expected neighbor
address must appear in the output, and no output line containing an
expected neighbor may contain `'Idle'` or `'Active'`. -/
def test_bgp_neighbors_established_pass (output : String) (expected_neighbors : List String) :
    Bool :=
  expected_neighbors.all (fun n => hasSub n.toList output.toList) &&
  (splitOnChar (Char.ofNat 10) output.toList).all (fun line =>
    expected_neighbors.all (fun n =>
      !(hasSub n.toList line) ||
      (!(hasSub "Idle".toList line) && !(hasSub "Active".toList line))))

/-! ## VRF definitions (tests/test_phase8_l3vpn.py, `VRFS`, lines 26-45) -/

structure VRFInfo where
  rd : String
  rt_import : String
  rt_export : String
  routers : List String
deriving DecidableEq

def VRFS : List (String × VRFInfo) :=
  [("STUDENT", ⟨"65001:100", "65001:100", "65001:100", ["main-agg1", "med-agg1", "res-agg1"]⟩),
   ("STAFF", ⟨"65001:200", "65001:200", "65001:200", ["main-agg1", "med-agg1", "res-agg1"]⟩),
   ("SERVERS", ⟨"65001:300", "65001:300", "65001:300", ["main-agg1"]⟩)]

/-! ## Phase 3 validation entry (tests/test_phase3_mpbgp_rr.py, lines 40-49) -/

/-- Translation of the `connected_devices` fixture of
tests/test_phase3_mpbgp_rr.py: it connects to every router in
`CORE_ROUTERS` unconditionally and returns the connection mapping's keys.
The `phase_validated` argument records, for each predecessor phase
number, whether that phase was confirmed; the source consults no such
state anywhere (the fixture takes only the testbed), so the argument is
ignored, and no error path exists (`Except.error` is never produced). -/
def phase3_connected_devices (_phase_validated : Nat → Bool) :
    Except String (List String) :=
  Except.ok CORE_ROUTERS

/-! ## Helper lemmas -/

theorem lookup_mem {α β : Type} [BEq α] [LawfulBEq α] :
    ∀ {l : List (α × β)} {k : α} {v : β}, l.lookup k = some v → (k, v) ∈ l := by
  intro l
  induction l with
  | nil => intro k v h; simp [List.lookup] at h
  | cons p rest ih =>
    intro k v h
    rw [List.lookup] at h
    cases hk : k == p.1 with
    | true =>
      rw [hk] at h
      obtain rfl := Option.some.inj h
      have hkp : k = p.1 := eq_of_beq hk
      subst hkp
      exact List.mem_cons_self _ _
    | false =>
      rw [hk] at h
      exact List.mem_cons_of_mem _ (ih h)

theorem client_branch_mem :
    ∀ (m : List (String × String)) (rrs : List String) (nbrs : List Neighbor)
      (e : Neighbor),
      client_branch_neighbors m rrs = some nbrs → e ∈ nbrs →
      ∃ rr ∈ rrs, m.lookup rr = some e.ip := by
  intro m rrs
  induction rrs with
  | nil =>
    intro nbrs e h he
    rw [client_branch_neighbors] at h
    obtain rfl := Option.some.inj h
    simp at he
  | cons rr rest ih =>
    intro nbrs e h he
    rw [client_branch_neighbors] at h
    cases hl : m.lookup rr with
    | none => rw [hl] at h; simp at h
    | some ip =>
      rw [hl] at h
      cases hr : client_branch_neighbors m rest with
      | none => rw [hr] at h; simp at h
      | some rest_nbrs =>
        rw [hr] at h
        obtain rfl := Option.some.inj h
        rcases List.mem_cons.mp he with rfl | he'
        · exact ⟨rr, List.mem_cons_self _ _, hl⟩
        · obtain ⟨rr', hrr', hl'⟩ := ih rest_nbrs e hr he'
          exact ⟨rr', List.mem_cons_of_mem _ hrr', hl'⟩

/-! ## Claim theorems -/

/-- C2: for every prefix length 0-32, the implementation's per-octet
expression `(0xffffffff << (32 - p) >> i) & 0xff` agrees with the
32-bit-truncated reference mask on all four octets, and the rendered
masks at p = 31, 32, 24 are `255.255.255.254`, `255.255.255.255` and
`255.255.255.0`. -/
theorem mask_octets_agree_with_truncated_reference :
    (∀ p, p ≤ 32 → ∀ i ∈ ([24, 16, 8, 0] : List Nat), mask_octet p i = mask_ref_octet p i) ∧
    mask 31 = "255.255.255.254" ∧ mask 32 = "255.255.255.255" ∧ mask 24 = "255.255.255.0" := by
  refine ⟨by decide, by decide, by decide, by decide⟩

/-- Witness for C2 at the /31 point-to-point case, first octet. -/
theorem mask_octets_agree_witness : mask_octet 31 24 = mask_ref_octet 31 24 :=
  mask_octets_agree_with_truncated_reference.1 31 (by decide) 24 (by decide)

/-- C7: every Link of the static inventory carries two `/31` addresses of
one shared /31 block (same 31-bit prefix, differing only in the final
bit), and no (device, interface) endpoint appears in more than one Link. -/
theorem links_are_31_pairs_with_unique_endpoints :
    LINKS.all link_31_ok = true ∧ ((LINKS.map link_endpoints).flatten).Nodup := by
  refine ⟨by decide, by decide⟩

/-- C9: every VRF defined in the system has equal import and export
route-target values, while the table stores the two fields independently. -/
theorem vrf_import_set_equals_export_set :
    ∀ p ∈ VRFS, p.2.rt_import = p.2.rt_export := by
  decide

/-- Witness for C9 at the STUDENT VRF. -/
theorem vrf_import_set_equals_export_set_witness :
    (VRFInfo.mk "65001:100" "65001:100" "65001:100"
        ["main-agg1", "med-agg1", "res-agg1"]).rt_import =
      (VRFInfo.mk "65001:100" "65001:100" "65001:100"
        ["main-agg1", "med-agg1", "res-agg1"]).rt_export :=
  vrf_import_set_equals_export_set
    ("STUDENT",
      VRFInfo.mk "65001:100" "65001:100" "65001:100"
        ["main-agg1", "med-agg1", "res-agg1"])
    (by decide)

/-- Counterexample for C4: with both predecessor phases marked
unsatisfied, the phase 3 validation entry still produces the full device
set to connect to and query; it returns no error before device queries. -/
theorem phase3_validation_queries_despite_unsatisfied_predecessors :
    phase3_connected_devices (fun _ => false) = Except.ok CORE_ROUTERS ∧
    CORE_ROUTERS ≠ [] :=
  ⟨rfl, by decide⟩

/-- C4 (amended): the implementation has no phase-dependency gate:
whatever the recorded status of phases 1 and 2, validating phase 3
connects to all five core routers and never raises. -/
theorem phase3_validation_has_no_predecessor_gate :
    ∀ phase_validated : Nat → Bool,
      phase3_connected_devices phase_validated = Except.ok CORE_ROUTERS ∧
      CORE_ROUTERS.length = 5 :=
  fun _ => ⟨rfl, rfl⟩

/-- Witness for the amended C4 with both predecessors marked satisfied. -/
theorem phase3_validation_has_no_predecessor_gate_witness :
    phase3_connected_devices (fun _ => true) = Except.ok CORE_ROUTERS :=
  (phase3_validation_has_no_predecessor_gate (fun _ => true)).1

/-- C1: under the concrete loopback mapping, a route reflector gets one
neighbor entry per other device of RR ∪ Clients with `is_client` set
exactly for client peers; a client gets one entry per route reflector
only, never flagged and never pointing at another client; the phase
device set equals RR ∪ Clients as a set; and the `core3` / `core1`
neighbor lists are exactly the ones the spec states. -/
theorem bgp_neighbor_derivation_matches_rr_topology :
    (∀ d, d ∈ ROUTE_REFLECTORS → ∀ nbrs, get_bgp_neighbors d LOOPBACKS = some nbrs →
        nbrs.map Neighbor.ip = (CORE_ROUTERS.filter (fun x => x != d)).map loopback_of ∧
        ∀ e ∈ nbrs, (e.is_client = true ↔ e.ip ∈ RR_CLIENTS.map loopback_of)) ∧
    (∀ d, d ∈ RR_CLIENTS → ∀ nbrs, get_bgp_neighbors d LOOPBACKS = some nbrs →
        nbrs.map Neighbor.ip = ROUTE_REFLECTORS.map loopback_of ∧
        ∀ e ∈ nbrs, e.is_client = false ∧ e.ip ∉ RR_CLIENTS.map loopback_of) ∧
    set_eq CORE_ROUTERS (ROUTE_REFLECTORS ++ RR_CLIENTS) = true ∧
    get_bgp_neighbors "core3" LOOPBACKS =
      some [⟨"10.255.1.1", "core1-RR", false⟩, ⟨"10.255.1.2", "core2-RR", false⟩,
            ⟨"10.255.1.5", "core5-RR", false⟩] ∧
    get_bgp_neighbors "core1" LOOPBACKS =
      some [⟨"10.255.1.2", "core2", false⟩, ⟨"10.255.1.3", "core3-RR-client", true⟩,
            ⟨"10.255.1.4", "core4-RR-client", true⟩, ⟨"10.255.1.5", "core5", false⟩] := by
  refine ⟨?_, ?_, by decide, by decide, by decide⟩
  · intro d hd nbrs h
    fin_cases hd <;>
      · obtain rfl := Option.some.inj h
        exact ⟨by decide, by decide⟩
  · intro d hd nbrs h
    fin_cases hd <;>
      · obtain rfl := Option.some.inj h
        exact ⟨by decide, by decide⟩

/-- Witness for C1: the route-reflector conjunct applied at `core1`. -/
theorem bgp_neighbor_derivation_witness :
    ([⟨"10.255.1.2", "core2", false⟩, ⟨"10.255.1.3", "core3-RR-client", true⟩,
      ⟨"10.255.1.4", "core4-RR-client", true⟩,
      ⟨"10.255.1.5", "core5", false⟩] : List Neighbor).map Neighbor.ip =
      (CORE_ROUTERS.filter (fun x => x != "core1")).map loopback_of :=
  (bgp_neighbor_derivation_matches_rr_topology.1 "core1" (by decide)
    [⟨"10.255.1.2", "core2", false⟩, ⟨"10.255.1.3", "core3-RR-client", true⟩,
     ⟨"10.255.1.4", "core4-RR-client", true⟩, ⟨"10.255.1.5", "core5", false⟩]
    (by decide)).1

/-- C3: for every device name, the BGP neighbor list produced against the
concrete loopback mapping is sorted by peer loopback in dotted-quad
numeric order. -/
theorem bgp_neighbors_sorted_by_numeric_loopback :
    ∀ d nbrs, get_bgp_neighbors d LOOPBACKS = some nbrs →
      ipSortedCheck (nbrs.map Neighbor.ip) = true := by
  intro d nbrs h
  by_cases hd : ROUTE_REFLECTORS.contains d = true
  · have hd' : d ∈ ROUTE_REFLECTORS := by simpa using hd
    fin_cases hd' <;>
      · obtain rfl := Option.some.inj h
        decide
  · rw [get_bgp_neighbors, if_neg hd] at h
    obtain rfl := Option.some.inj h
    decide

/-- Witness for C3 at the client `core3`. -/
theorem bgp_neighbors_sorted_witness :
    ipSortedCheck
      (([⟨"10.255.1.1", "core1-RR", false⟩, ⟨"10.255.1.2", "core2-RR", false⟩,
         ⟨"10.255.1.5", "core5-RR", false⟩] : List Neighbor).map Neighbor.ip) = true :=
  bgp_neighbors_sorted_by_numeric_loopback "core3"
    [⟨"10.255.1.1", "core1-RR", false⟩, ⟨"10.255.1.2", "core2-RR", false⟩,
     ⟨"10.255.1.5", "core5-RR", false⟩] (by decide)

/-- Counterexample for C5: a device name absent from the topology does
not fail; the derivation returns the full route-reflector neighbor list. -/
theorem unknown_device_returns_rr_neighbor_list :
    get_bgp_neighbors "no-such-device" LOOPBACKS =
      some [⟨"10.255.1.1", "core1-RR", false⟩, ⟨"10.255.1.2", "core2-RR", false⟩,
            ⟨"10.255.1.5", "core5-RR", false⟩] := by
  decide

/-- C5 (amended): the derivation raises no error for unknown names: every
device name outside the RR set, known or not, takes the client branch and
receives one entry per route reflector. -/
theorem non_rr_name_treated_as_client :
    ∀ d, d ∉ ROUTE_REFLECTORS →
      get_bgp_neighbors d LOOPBACKS =
        some [⟨"10.255.1.1", "core1-RR", false⟩, ⟨"10.255.1.2", "core2-RR", false⟩,
              ⟨"10.255.1.5", "core5-RR", false⟩] := by
  intro d hd
  have hc : ¬(ROUTE_REFLECTORS.contains d = true) := fun hc => hd (by simpa using hc)
  rw [get_bgp_neighbors, if_neg hc]
  decide

/-- Witness for the amended C5 at a name not in the inventory. -/
theorem non_rr_name_treated_as_client_witness :
    get_bgp_neighbors "core9" LOOPBACKS =
      some [⟨"10.255.1.1", "core1-RR", false⟩, ⟨"10.255.1.2", "core2-RR", false⟩,
            ⟨"10.255.1.5", "core5-RR", false⟩] :=
  non_rr_name_treated_as_client "core9" (by decide)

/-- Counterexample for C10: with a mapping giving two devices the same
loopback, the route-reflector branch emits an entry equal to the querying
device's own loopback. -/
theorem duplicate_loopback_mapping_pairs_device_with_itself :
    get_bgp_neighbors "core1" [("core1", "10.255.1.9"), ("core2", "10.255.1.9")] =
      some [⟨"10.255.1.9", "core2", false⟩] ∧
    List.lookup "core1" [("core1", "10.255.1.9"), ("core2", "10.255.1.9")] =
      some "10.255.1.9" := by
  exact ⟨by decide, by decide⟩

/-- C10 (amended): whenever no *other* device of the mapping shares the
querying device's loopback, the derived neighbor list never contains the
device's own loopback: the RR branch skips the device by name and the
client branch looks up only route reflectors, none of which is the
device. -/
theorem bgp_neighbors_never_contain_own_loopback :
    ∀ (d : String) (m : List (String × String)) (own : String) (nbrs : List Neighbor),
      m.lookup d = some own →
      (∀ p ∈ m, p.1 ≠ d → p.2 ≠ own) →
      get_bgp_neighbors d m = some nbrs →
      ∀ e ∈ nbrs, e.ip ≠ own := by
  intro d m own nbrs _hlook hinj hgbn e he
  rw [get_bgp_neighbors] at hgbn
  by_cases hd : ROUTE_REFLECTORS.contains d = true
  · rw [if_pos hd] at hgbn
    obtain rfl := Option.some.inj hgbn
    rw [rr_branch_neighbors, List.mem_filterMap] at he
    obtain ⟨p, hp, hpe⟩ := he
    by_cases hpd : p.1 = d
    · rw [if_pos hpd] at hpe
      exact absurd hpe (by simp)
    · rw [if_neg hpd] at hpe
      obtain rfl := Option.some.inj hpe
      exact hinj p hp hpd
  · rw [if_neg hd] at hgbn
    obtain ⟨rr, hrr, hlkup⟩ := client_branch_mem m ROUTE_REFLECTORS nbrs e hgbn he
    have hrd : rr ≠ d := by
      intro hrd
      subst hrd
      exact hd (by simpa using hrr)
    exact hinj (rr, e.ip) (lookup_mem hlkup) hrd

/-- Witness for the amended C10 at `core3` under the injective concrete
mapping, instantiated at its first neighbor entry. -/
theorem bgp_neighbors_never_contain_own_loopback_witness :
    Neighbor.ip ⟨"10.255.1.1", "core1-RR", false⟩ ≠ "10.255.1.3" :=
  bgp_neighbors_never_contain_own_loopback "core3" LOOPBACKS "10.255.1.3"
    [⟨"10.255.1.1", "core1-RR", false⟩, ⟨"10.255.1.2", "core2-RR", false⟩,
     ⟨"10.255.1.5", "core5-RR", false⟩]
    (by decide) (by decide) (by decide)
    ⟨"10.255.1.1", "core1-RR", false⟩ (by decide)

/-- C6: whenever an output line contains an expected peer together with
`Idle` or `Active`, the established-session assertion fails, even though
the peer address is present; with the markers absent from every line
holding a peer, the assertion passes (concrete instances for peer
`10.255.1.5`). -/
theorem idle_or_active_peer_line_fails_established_check :
    (∀ (output : String) (expected : List String) (line : List Char) (n : String),
        line ∈ splitOnChar (Char.ofNat 10) output.toList →
        n ∈ expected →
        hasSub n.toList line = true →
        (hasSub "Idle".toList line = true ∨ hasSub "Active".toList line = true) →
        test_bgp_neighbors_established_pass output expected = false) ∧
    test_bgp_neighbors_established_pass
      "Neighbor    V  AS  State/PfxRcd\n10.255.1.5  4 65001 never Idle"
      ["10.255.1.5"] = false ∧
    test_bgp_neighbors_established_pass
      "Neighbor    V  AS  State/PfxRcd\n10.255.1.5  4 65001 5"
      ["10.255.1.5"] = true := by
  refine ⟨?_, by decide, by decide⟩
  intro output expected line n hline hn hpeer hmark
  unfold test_bgp_neighbors_established_pass
  have hB : ((splitOnChar (Char.ofNat 10) output.toList).all fun l2 =>
      expected.all fun n2 =>
        !(hasSub n2.toList l2) ||
        (!(hasSub "Idle".toList l2) && !(hasSub "Active".toList l2))) = false := by
    rw [Bool.eq_false_iff]
    intro hall
    rw [List.all_eq_true] at hall
    have h1 := hall line hline
    rw [List.all_eq_true] at h1
    have h2 := h1 n hn
    rw [hpeer] at h2
    simp only [Bool.not_true, Bool.false_or, Bool.and_eq_true, Bool.not_eq_true'] at h2
    rcases hmark with hI | hA
    · rw [h2.1] at hI
      exact Bool.noConfusion hI
    · rw [h2.2] at hA
      exact Bool.noConfusion hA
  rw [hB, Bool.and_false]

/-- Witness for C6: a single summary line holding both the expected peer
and `Idle` makes the assertion fail. -/
theorem idle_peer_line_fails_witness :
    test_bgp_neighbors_established_pass
      "10.255.1.5  4 65001 never Idle" ["10.255.1.5"] = false :=
  idle_or_active_peer_line_fails_established_check.1
    "10.255.1.5  4 65001 never Idle" ["10.255.1.5"]
    "10.255.1.5  4 65001 never Idle".toList "10.255.1.5"
    (by decide) (by decide) (by decide) (Or.inl (by decide))

/-- C8: the LDP neighbor-count assertion passes exactly when the observed
count is at least the expected 2 (so a superset of sessions passes),
while the OSPF neighbor assertion passes exactly on mutual inclusion of
found and expected neighbor sets; concrete superset and subset instances
fail for OSPF, and a three-session output passes for LDP. -/
theorem ldp_count_at_least_vs_ospf_exact_set :
    (∀ output : String,
        test_ldp_neighbor_count_pass output = true ↔
          2 ≤ countSub "Peer LDP Ident".toList output.toList) ∧
    (∀ (router : String) (expected found : List String),
        EXPECTED_NEIGHBORS.lookup router = some expected →
        (test_correct_ospf_neighbors_pass router found = some true ↔
          (∀ x ∈ found, x ∈ expected) ∧ ∀ x ∈ expected, x ∈ found)) ∧
    (∀ r ∈ CORE_ROUTERS, (EXPECTED_NEIGHBORS.lookup r).isSome = true) ∧
    test_correct_ospf_neighbors_pass "core1"
      ["10.255.1.2", "10.255.1.5", "10.255.1.3"] = some false ∧
    test_correct_ospf_neighbors_pass "core1" ["10.255.1.2"] = some false ∧
    test_ldp_neighbor_count_pass
      "Peer LDP Ident: 10.255.1.2:0\n State: Oper\nPeer LDP Ident: 10.255.1.5:0\n State: Oper\nPeer LDP Ident: 10.255.1.3:0\n State: Oper" = true := by
  refine ⟨?_, ?_, by decide, by decide, by decide, by decide⟩
  · intro output
    simp [test_ldp_neighbor_count_pass]
  · intro router expected found hlk
    unfold test_correct_ospf_neighbors_pass
    rw [hlk]
    simp [set_eq, List.all_eq_true]

/-- Witness for C8: the OSPF assertion on `core1` passes with exactly the
derived neighbor set. -/
theorem ospf_exact_set_witness :
    test_correct_ospf_neighbors_pass "core1" ["10.255.1.2", "10.255.1.5"] = some true :=
  (ldp_count_at_least_vs_ospf_exact_set.2.1 "core1" ["10.255.1.2", "10.255.1.5"]
    ["10.255.1.2", "10.255.1.5"] rfl).mpr (by decide)

end EUnivLab
